import Mathlib

/-!
Verification development for the `clusterfy` dashboard (`src/app.py`).

The repository is a thin pipeline around external libraries (tekore, pandas,
scikit-learn, umap, seaborn, plotly, streamlit).  The shallow embedding below
models the repository's own glue code faithfully — the iteration structure of
`load_playlists`, the parameter computation and in-place dataframe mutation of
`plot_songs`, the branch structure of `plot_distribution`, and the top-level
page flow — while the external collaborators (the paginated API client, the
sklearn/umap estimators, the matplotlib tick state) enter as explicit data or
as abstract function parameters, exactly at the interface boundary the code
uses them through.
-/

namespace Clusterfy

/-! ### Data model of the tekore client surface used by `app.py` -/

/-- A track artist (tekore model object); only `name` is read by the app. -/
structure Artist where
  name : String
deriving DecidableEq, Repr

/-- A track as delivered by the API: its id is `none` for removed/local
content (`track.id is None` in the code). -/
structure Track where
  id : Option String
  artists : List Artist
  name : String
deriving DecidableEq, Repr

/-- A playlist-track wrapper; the code immediately projects `track.track`. -/
structure TrackItem where
  track : Track
deriving DecidableEq, Repr

/-- A paginated listing: `items` is the page held by the returned object and
`rest` the pages reachable through its `next` links. -/
structure Paging (α : Type) where
  items : List α
  rest : List (List α)
deriving DecidableEq, Repr

/-- `spotify.all_items(paging)`: iterate the current page and every following
page. -/
def all_items {α : Type} (p : Paging α) : List α :=
  p.items ++ p.rest.flatten

/-- A full playlist object as returned by `spotify.playlist(playlist_id=...)`. -/
structure FullPlaylist where
  name : String
  tracks : Paging TrackItem
deriving DecidableEq, Repr

/-- An entry of the playlist listing; the code only reads its `id`. -/
structure PlaylistRef where
  id : String
deriving DecidableEq, Repr

/-- The numeric audio-descriptor vector (`spotify.track_audio_features`). -/
structure AudioFeaturesVec where
  acousticness : ℚ
  danceability : ℚ
  duration_ms : ℚ
  energy : ℚ
  instrumentalness : ℚ
  key : ℤ
  liveness : ℚ
  loudness : ℚ
  mode : ℤ
  speechiness : ℚ
  tempo : ℚ
  time_signature : ℤ
  valence : ℚ
deriving DecidableEq, Repr

/-- The slice of the tekore `Spotify` client that `load_playlists` consumes:
`playlists` returns the paging object for a user's playlists, `playlist`
resolves a playlist id to the full object, and `track_audio_features` the
descriptor vector of a track id. -/
structure SpotifyClient where
  playlists : String → Paging PlaylistRef
  playlist : String → FullPlaylist
  track_audio_features : String → AudioFeaturesVec

/-- One row of the tabular dataset built by `load_playlists` (the `song`
dict of `app.py`, in field order). -/
structure Song where
  playlist : String
  song_interpret : String
  song_title : String
  acousticness : ℚ
  danceability : ℚ
  duration : ℚ
  energy : ℚ
  instrumentalness : ℚ
  key : ℤ
  liveness : ℚ
  loudness : ℚ
  mode : ℤ
  speechiness : ℚ
  tempo : ℚ
  time_signature : ℤ
  valence : ℚ
deriving DecidableEq, Repr

/-- Builds the `song` record appended for one track (`app.py` lines 61–79):
note `duration := duration_ms / 1e3`. -/
def mkSong (playlistName : String) (track : Track) (af : AudioFeaturesVec) : Song :=
  { playlist := playlistName
    song_interpret := String.intercalate ", " (track.artists.map Artist.name)
    song_title := track.name
    acousticness := af.acousticness
    danceability := af.danceability
    duration := af.duration_ms / 1000
    energy := af.energy
    instrumentalness := af.instrumentalness
    key := af.key
    liveness := af.liveness
    loudness := af.loudness
    mode := af.mode
    speechiness := af.speechiness
    tempo := af.tempo
    time_signature := af.time_signature
    valence := af.valence }

/-- The per-track body of the inner loop of `load_playlists`: skip the track
when `track.id is None`, otherwise fetch its descriptors and build the row. -/
def songOfItem (spotify : SpotifyClient) (playlistName : String) (item : TrackItem) :
    Option Song :=
  match item.track.id with
  | none => none
  | some tid => some (mkSong playlistName item.track (spotify.track_audio_features tid))

/-- `load_playlists` (`app.py` lines 50–82), minus the cache decorator and the
rate-limit sleep: iterate the playlist objects of `spotify.playlists(user_id)`
— the code walks `playlists.items`, i.e. the page held by the returned paging
object — resolve each to a full playlist, iterate *all* of its tracks via
`spotify.all_items(playlist.tracks)`, and append one row per track that has a
resolvable id. -/
def load_playlists (spotify : SpotifyClient) (user_id : String) : List Song :=
  ((spotify.playlists user_id).items.map (fun pref =>
    let playlist := spotify.playlist pref.id
    (all_items playlist.tracks).filterMap (songOfItem spotify playlist.name))).flatten

/-- The Track Fetcher as the spec describes it: identical to `load_playlists`
except that the playlist listing itself is exhausted across *all* of its pages
("enumerate all playlists owned by the profile (paginated by the underlying
client)").  Used to compare the code against the spec's claim. -/
def load_playlists_spec (spotify : SpotifyClient) (user_id : String) : List Song :=
  ((all_items (spotify.playlists user_id)).map (fun pref =>
    let playlist := spotify.playlist pref.id
    (all_items playlist.tracks).filterMap (songOfItem spotify playlist.name))).flatten

/-! ### The Embedding Engine (`plot_songs`, `app.py` lines 85–132) -/

/-- Python's built-in `round`: round half to even (banker's rounding). -/
def pyRound (q : ℚ) : ℤ :=
  let fl : ℤ := ⌊q⌋
  let frac : ℚ := q - fl
  if frac < 1 / 2 then fl
  else if 1 / 2 < frac then fl + 1
  else if fl % 2 = 0 then fl else fl + 1

/-- `statistics.median`: sort the data; the middle element for odd length, the
mean of the two middle elements for even length.  (Python raises on an empty
list; the app only reaches it with a non-empty dataset.) -/
def median (l : List ℚ) : ℚ :=
  let s := List.insertionSort (· ≤ ·) l
  let n := l.length
  if n % 2 = 1 then s.getD (n / 2) 0
  else (s.getD (n / 2 - 1) 0 + s.getD (n / 2) 0) / 2

/-- `songs.groupby("playlist").size()`: the number of rows per distinct
playlist name. -/
def playlistSizes (songs : List Song) : List ℕ :=
  ((songs.map Song.playlist).dedup).map
    (fun p => (songs.filter (fun s => s.playlist = p)).length)

/-- `songs.groupby("playlist").size().agg(median)` (`app.py` line 87). -/
def typical_playlist_size (songs : List Song) : ℚ :=
  median ((playlistSizes songs).map (fun n => (n : ℚ)))

/-- The constructor arguments of `umap.UMAP` as used on `app.py` line 92. -/
structure UMAPParams where
  n_components : ℕ
  n_neighbors : ℤ
  min_dist : ℚ
  random_state : Option ℕ
deriving DecidableEq, Repr

/-- The UMAP parameters `plot_songs` builds for a dataset:
`n_components=dimensions`, `n_neighbors=round(typical_playlist_size/2)`,
`min_dist=0.75`, `random_state=42`. -/
def umapParams (songs : List Song) (dimensions : ℕ) : UMAPParams :=
  { n_components := dimensions
    n_neighbors := pyRound (typical_playlist_size songs / 2)
    min_dist := 3 / 4
    random_state := some 42 }

/-- `songs.drop(["playlist", "song_title", "song_interpret"], axis=1)` for one
row: the 13 descriptor columns in dataframe order. -/
def descriptorRow (s : Song) : List ℚ :=
  [s.acousticness, s.danceability, s.duration, s.energy, s.instrumentalness,
   (s.key : ℚ), s.liveness, s.loudness, (s.mode : ℚ), s.speechiness, s.tempo,
   (s.time_signature : ℚ), s.valence]

/-- The external scikit-learn/umap estimators, abstracted at their call
boundary.  `encodeScale` is the fitted `ColumnTransformer(OneHotEncoder on
the given categorical columns, remainder passthrough)` followed by
`RobustScaler` — a deterministic library transformation.  `labelEncode` is
`LabelEncoder().fit_transform`.  `umap` is `UMAP(...).fit_transform`; its
first argument is an opaque run identifier modelling the entropy the library
may draw on when no `random_state` is supplied. -/
structure MLLib where
  encodeScale : List String → List (List ℚ) → List (List ℚ)
  labelEncode : List String → List ℕ
  umap : ℕ → UMAPParams → List (List ℚ) → List ℕ → List (List ℚ)

/-- `embedding[:, j]` on a row-major matrix: the j-th entry of every row, or
an `IndexError` if some row is too short. -/
def matCol (m : List (List ℚ)) (j : ℕ) : Except String (List ℚ) :=
  if m.all (fun row => decide (j < row.length)) then
    Except.ok (m.map (fun row => row.getD j 0))
  else Except.error "IndexError: index out of bounds"

/-- The state of the `songs` dataframe object passed to `plot_songs`: the
original rows plus the columns the function assigns in place
(`songs["x"] = ...` and friends, `app.py` lines 99–103). -/
structure PlottedSongs where
  base : List Song
  x : Option (List ℚ)
  y : Option (List ℚ)
  z : Option (List ℚ)
  title : Option (List String)
deriving DecidableEq, Repr

/-- The untouched dataframe state, before any in-place assignment. -/
def pristine (songs : List Song) : PlottedSongs :=
  { base := songs, x := none, y := none, z := none, title := none }

/-- The plotly figure, reduced to what the code determines: 2D vs 3D scatter,
the dataframe it draws, and whether `dragmode` was set to `"pan"`. -/
structure Fig where
  is3d : Bool
  df : PlottedSongs
  dragmode_pan : Bool
deriving DecidableEq, Repr

deriving instance DecidableEq for Except

/-- What a call to `plot_songs` leaves behind: the final state of the caller's
dataframe (including any in-place mutation) and either the produced figure or
the raised error. -/
structure PlotOutcome where
  df : PlottedSongs
  result : Except String Fig
deriving DecidableEq, Repr

/-- `songs["title"] = songs["song_interpret"] + " - " + songs["song_title"]`. -/
def titleColumn (songs : List Song) : List String :=
  songs.map (fun s => s.song_interpret ++ " - " ++ s.song_title)

/-- `pipe.fit_transform(X=songs.drop([...], axis=1),
y=LabelEncoder().fit_transform(songs["playlist"]))` (`app.py` lines 88–98):
encode, scale, then embed with the parameters of `umapParams`. -/
def plot_songs_embedding (lib : MLLib) (run : ℕ) (songs : List Song)
    (dimensions : ℕ) : List (List ℚ) :=
  lib.umap run (umapParams songs dimensions)
    (lib.encodeScale ["time_signature", "mode", "key"] (songs.map descriptorRow))
    (lib.labelEncode (songs.map Song.playlist))

/-- `app.py` lines 99–132 after the embedding is computed: assign `x` and `y`
in place, assign `z` when `dimensions == 3`, assign `title`, then build the
scatter — or raise `ValueError` for any other dimensionality, *after* those
assignments.  A column extraction that fails (`embedding[:, j]` out of range)
raises at that point, leaving the earlier assignments in place. -/
def plot_songs_build (songs : List Song) (dimensions : ℕ)
    (embedding : List (List ℚ)) : PlotOutcome :=
  match matCol embedding 0 with
  | Except.error e => ⟨pristine songs, Except.error e⟩
  | Except.ok c0 =>
    match matCol embedding 1 with
    | Except.error e => ⟨{ pristine songs with x := some c0 }, Except.error e⟩
    | Except.ok c1 =>
      if dimensions = 3 then
        match matCol embedding 2 with
        | Except.error e =>
            ⟨{ pristine songs with x := some c0, y := some c1 }, Except.error e⟩
        | Except.ok c2 =>
          let df : PlottedSongs :=
            { base := songs, x := some c0, y := some c1, z := some c2,
              title := some (titleColumn songs) }
          ⟨df, Except.ok { is3d := true, df := df, dragmode_pan := false }⟩
      else
        let df : PlottedSongs :=
          { base := songs, x := some c0, y := some c1, z := none,
            title := some (titleColumn songs) }
        if dimensions = 2 then
          ⟨df, Except.ok { is3d := false, df := df, dragmode_pan := true }⟩
        else ⟨df, Except.error "Parameter dimensions has to be either 2 or 3."⟩

/-- `plot_songs` (`app.py` lines 85–132), minus the cache decorator: compute
the embedding of the dataset, then mutate the dataframe and build the figure. -/
def plot_songs (lib : MLLib) (run : ℕ) (songs : List Song) (dimensions : ℕ) :
    PlotOutcome :=
  plot_songs_build songs dimensions (plot_songs_embedding lib run songs dimensions)

/-! ### The Distribution Renderer (`plot_distribution`, `app.py` lines 135–166) -/

/-- One entry of `audio_features.json` (the Feature Catalog): a description
plus either a `value_map` (categorical) or a `unit` (continuous); the code
branches on which key is present. -/
structure CatalogEntry where
  description : String
  value_map : Option (List (String × String))
  unit : Option String
deriving DecidableEq, Repr

/-- The rendered chart, reduced to what the code determines: either a seaborn
count plot with its relabelled x ticks, or a kde plot with its
`common_norm`/`clip` arguments and axis labels, or an untouched figure when
the catalog entry declares neither kind. -/
inductive DistChart where
  | countplot (x : String) (hue : Option String) (xticklabels : List String)
      (ylabel : String) : DistChart
  | kdeplot (x : String) (hue : Option String) (common_norm : Bool)
      (clip : Option (ℚ × Option ℚ)) (xlabel : String) (ylabel : String) : DistChart
  | blank : DistChart
deriving DecidableEq, Repr

/-- `plot_distribution` (`app.py` lines 135–157), with the matplotlib tick
state abstracted as the `ticks` argument (`plt.gca().get_xticks()`): look the
column up in the catalog; a `value_map` entry yields a count plot whose tick
labels go through `value_map.get(str(label), label)`; a `unit` entry yields a
kde plot with `common_norm=False` and the support clip chosen by the unit
(`"%"` → `(0, 1)`, `"s"` → `(0, None)`, anything else → no clip).  A missing
catalog entry makes the Python code raise on `None.keys()`, modelled as
`none`. -/
def plot_distribution (ticks : List ℤ) (songs : List Song)
    (audio_features : List (String × CatalogEntry)) (x : String)
    (hue : Option String) : Option DistChart :=
  match audio_features.lookup x with
  | none => none
  | some audio_feature =>
    match audio_feature.value_map with
    | some value_map =>
      some (DistChart.countplot x hue
        (ticks.map (fun label => (value_map.lookup (toString label)).getD (toString label)))
        "Number of songs")
    | none =>
      match audio_feature.unit with
      | some unit =>
        let clip : Option (ℚ × Option ℚ) :=
          if unit = "%" then some (0, some 1)
          else if unit = "s" then some (0, none)
          else none
        some (DistChart.kdeplot x hue false clip
          (if unit = "%" then x else x ++ " [" ++ unit ++ "]") "Share of songs")
      | none => some DistChart.blank

/-! ### The page flow (`app.py` lines 202–241) -/

/-- What the page body renders for a loaded track table: either the
`st.warning("No public playlists.")` informational state with nothing else, or
the two metrics plus the two tab contents (the distribution chart and the map
figure). -/
inductive MainView where
  | warning (msg : String) : MainView
  | content (playlists_metric : ℕ) (songs_metric : ℕ)
      (dist_tab : Option DistChart) (map_tab : PlotOutcome) : MainView

/-- `app.py` lines 202–241: `if len(songs) == 0` show the warning, else show
the `Playlists`/`Songs` metrics and render both tabs (`plot_distribution` for
the selected dimension `x` and `plot_songs` for the selected dimensionality). -/
def renderMain (lib : MLLib) (run : ℕ)
    (audio_features : List (String × CatalogEntry)) (ticks : List ℤ)
    (songs : List Song) (x : String) (split : Bool) (dims : ℕ) : MainView :=
  if songs.length = 0 then MainView.warning "No public playlists."
  else
    MainView.content ((songs.map Song.playlist).dedup).length songs.length
      (plot_distribution ticks songs audio_features x
        (if split then some "playlist" else none))
      (plot_songs lib run songs dims)

/-! ### Specification predicates -/

/-- The provenance of one output row: it comes from a playlist on the page
held by the playlist listing, from a track (on any of the playlist's track
pages) whose id is resolvable. -/
def rowFromResolvableTrack (c : SpotifyClient) (user_id : String) (s : Song) : Prop :=
  ∃ pref ∈ (c.playlists user_id).items,
    ∃ item ∈ all_items (c.playlist pref.id).tracks,
      ∃ tid, item.track.id = some tid ∧
        s = mkSong (c.playlist pref.id).name item.track (c.track_audio_features tid)

/-- The amended Track Fetcher contract: one row per (playlist, resolvable
track) pair over the playlists of the *first page* of the listing, with the
tracks of each such playlist exhausted across all of their pages. -/
def firstPageRows (c : SpotifyClient) (user_id : String) : Prop :=
  (load_playlists c user_id).length =
      ((c.playlists user_id).items.map (fun pref =>
        (all_items (c.playlist pref.id).tracks).countP
          (fun item => item.track.id.isSome))).sum ∧
    ∀ s : Song, s ∈ load_playlists c user_id ↔ rowFromResolvableTrack c user_id s

/-- The duration column of a row records the upstream millisecond duration of
its originating track divided by 1000. -/
def durationInSeconds (c : SpotifyClient) (user_id : String) (s : Song) : Prop :=
  ∃ tid, (∃ pref ∈ (c.playlists user_id).items,
      ∃ item ∈ all_items (c.playlist pref.id).tracks, item.track.id = some tid) ∧
    s.duration = (c.track_audio_features tid).duration_ms / 1000

/-- `true` exactly when the call raised instead of returning a figure. -/
def isError {ε α : Type} : Except ε α → Bool
  | Except.error _ => true
  | Except.ok _ => false

/-- The library contract `random_state` buys: whenever a seed is supplied,
the embedding does not depend on the run's entropy source. -/
def seedDeterministic (lib : MLLib) : Prop :=
  ∀ r1 r2 p X y, (UMAPParams.random_state p).isSome = true →
    lib.umap r1 p X y = lib.umap r2 p X y

/-! ### Concrete fixtures used by witnesses and counterexamples -/

/-- A concrete track row (playlist "A"); descriptor values are literals. -/
def songA : Song :=
  { playlist := "A", song_interpret := "X", song_title := "T1",
    acousticness := 0, danceability := 0, duration := 200, energy := 0,
    instrumentalness := 0, key := 5, liveness := 0, loudness := 0, mode := 1,
    speechiness := 0, tempo := 120, time_signature := 4, valence := 0 }

/-- A second track row in the same playlist. -/
def songB : Song := { songA with song_title := "T2" }

/-- A one-track dataset: the median playlist size is 1. -/
def songs1 : List Song := [songA]

/-- A two-track single-playlist dataset: the median playlist size is 2. -/
def songs2 : List Song := [songA, songB]

def trackA : Track := { id := some "ta", artists := [⟨"ArtA"⟩], name := "SongA" }

def trackB : Track := { id := some "tb", artists := [⟨"ArtB"⟩], name := "SongB" }

def afW : AudioFeaturesVec :=
  { acousticness := 0, danceability := 0, duration_ms := 200000, energy := 0,
    instrumentalness := 0, key := 5, liveness := 0, loudness := 0, mode := 1,
    speechiness := 0, tempo := 120, time_signature := 4, valence := 0 }

/-- A client whose playlist listing has a second page (playlist "p2"); each
playlist holds one resolvable track on its single track page. -/
def clientW : SpotifyClient :=
  { playlists := fun _ => ⟨[⟨"p1"⟩], [[⟨"p2"⟩]]⟩
    playlist := fun pid =>
      if pid = "p1" then ⟨"PL1", ⟨[⟨trackA⟩], []⟩⟩ else ⟨"PL2", ⟨[⟨trackB⟩], []⟩⟩
    track_audio_features := fun _ => afW }

/-- The row `load_playlists clientW "u"` produces for `trackA`. -/
def songRowA : Song := mkSong "PL1" trackA afW

/-- A concrete instantiation of the external estimators: the encoder/scaler is
the identity and the embedder ignores its run identifier and returns an
`n_components`-wide zero row per input row. -/
def libW : MLLib :=
  { encodeScale := fun _ X => X
    labelEncode := fun names => List.range names.length
    umap := fun _ p X _ => X.map (fun _ => List.replicate p.n_components 0) }

/-- A categorical catalog entry mapping code 0 to "C" and 1 to "Db". -/
def entryKeyW : CatalogEntry :=
  { description := "pitch class", value_map := some [("0", "C"), ("1", "Db")],
    unit := none }

/-- A catalog holding the categorical entry. -/
def catW : List (String × CatalogEntry) := [("key", entryKeyW)]

/-- A continuous catalog entry with a percentage unit. -/
def entryAcW : CatalogEntry :=
  { description := "confidence measure", value_map := none, unit := some "%" }

/-- A catalog holding the percentage entry. -/
def catPctW : List (String × CatalogEntry) := [("acousticness", entryAcW)]

/-! ### Characterization lemmas for `load_playlists` -/

theorem songOfItem_eq_some {spotify : SpotifyClient} {playlistName : String}
    {item : TrackItem} {s : Song} :
    songOfItem spotify playlistName item = some s ↔
      ∃ tid, item.track.id = some tid ∧
        s = mkSong playlistName item.track (spotify.track_audio_features tid) := by
  cases h : item.track.id with
  | none => simp [songOfItem, h]
  | some tid => simp [songOfItem, h, eq_comm]

theorem mem_load_playlists {c : SpotifyClient} {user_id : String} {s : Song} :
    s ∈ load_playlists c user_id ↔ rowFromResolvableTrack c user_id s := by
  constructor
  · intro hs
    simp only [load_playlists, List.mem_flatten, List.mem_map] at hs
    obtain ⟨l, ⟨pref, hpref, rfl⟩, hmem⟩ := hs
    rw [List.mem_filterMap] at hmem
    obtain ⟨item, hitem, hsome⟩ := hmem
    rw [songOfItem_eq_some] at hsome
    obtain ⟨tid, htid, hs⟩ := hsome
    exact ⟨pref, hpref, item, hitem, tid, htid, hs⟩
  · rintro ⟨pref, hpref, item, hitem, tid, htid, hs⟩
    simp only [load_playlists, List.mem_flatten, List.mem_map]
    refine ⟨_, ⟨pref, hpref, rfl⟩, ?_⟩
    rw [List.mem_filterMap]
    exact ⟨item, hitem, songOfItem_eq_some.mpr ⟨tid, htid, hs⟩⟩

theorem length_filterMap_isSome {α β : Type} (f : α → Option β) (l : List α) :
    (l.filterMap f).length = l.countP (fun a => (f a).isSome) := by
  induction l with
  | nil => rfl
  | cons a l ih => cases h : f a <;> simp [List.filterMap_cons, h, List.countP_cons, ih]

theorem length_load_playlists (c : SpotifyClient) (user_id : String) :
    (load_playlists c user_id).length =
      ((c.playlists user_id).items.map (fun pref =>
        (all_items (c.playlist pref.id).tracks).countP
          (fun item => item.track.id.isSome))).sum := by
  simp only [load_playlists, List.length_flatten, List.map_map]
  congr 1
  apply List.map_congr_left
  intro pref _
  rw [Function.comp_apply, length_filterMap_isSome]
  apply List.countP_congr
  intro item _
  cases h : item.track.id <;> simp [songOfItem, h]

/-! ### Arithmetic helper lemmas -/

theorem pyRound_half : pyRound ((1 : ℚ) / 2) = 0 := by
  have hf : ⌊(1 : ℚ) / 2⌋ = 0 := by
    rw [Int.floor_eq_zero_iff, Set.mem_Ico]
    norm_num
  unfold pyRound
  dsimp only
  rw [hf]
  norm_num

theorem one_le_pyRound (q : ℚ) (h : 1 / 2 < q) : 1 ≤ pyRound q := by
  have h0 : (0 : ℚ) ≤ q := le_trans (by norm_num) h.le
  have hfl0 : 0 ≤ ⌊q⌋ := Int.floor_nonneg.mpr h0
  unfold pyRound
  dsimp only
  split_ifs with h1 h2 h3
  · rcases lt_or_le ⌊q⌋ 1 with hfl | hfl
    · have hq0 : ⌊q⌋ = 0 := by omega
      rw [hq0] at h1
      push_cast at h1
      linarith
    · exact hfl
  · omega
  · have h12 : q - (⌊q⌋ : ℚ) = 1 / 2 := le_antisymm (not_lt.mp h2) (not_lt.mp h1)
    have hpos : (0 : ℚ) < (⌊q⌋ : ℚ) := by linarith
    have hz : (0 : ℤ) < ⌊q⌋ := by exact_mod_cast hpos
    omega
  · omega

/-! ### Claim theorems -/

/-- C1 counterexample: for the one-track dataset the median playlist size is
1, so the neighborhood size `round(median/2) = round(0.5)` is 0 under
Python's round-half-to-even — the claimed lower bound of 1 fails. -/
theorem n_neighbors_zero_on_singleton :
    (umapParams songs1 2).n_neighbors = 0 ∧
      ¬ 1 ≤ (umapParams songs1 2).n_neighbors := by
  have h1 : typical_playlist_size songs1 = 1 := by decide
  have h0 : (umapParams songs1 2).n_neighbors = 0 := by
    show pyRound (typical_playlist_size songs1 / 2) = 0
    rw [h1]
    exact pyRound_half
  refine ⟨h0, ?_⟩
  rw [h0]
  decide

/-- C1 (amended): the neighborhood size passed to the embedding equals
`round(median per-playlist track count / 2)` with Python's banker's rounding;
it is at least 1 whenever the median per-playlist track count exceeds 1, and
it is 0 when the median is exactly 1. -/
theorem neighborhood_size_formula (songs : List Song) (dimensions : ℕ) :
    (umapParams songs dimensions).n_neighbors =
        pyRound (typical_playlist_size songs / 2) ∧
      (1 < typical_playlist_size songs →
        1 ≤ (umapParams songs dimensions).n_neighbors) ∧
      (typical_playlist_size songs = 1 →
        (umapParams songs dimensions).n_neighbors = 0) := by
  refine ⟨rfl, ?_, ?_⟩
  · intro h
    show 1 ≤ pyRound (typical_playlist_size songs / 2)
    exact one_le_pyRound _ (by linarith)
  · intro h
    show pyRound (typical_playlist_size songs / 2) = 0
    rw [h]
    exact pyRound_half

/-- C1 witness: on the two-track single-playlist dataset the median is 2 > 1
and the neighborhood size is ≥ 1. -/
theorem neighborhood_size_formula_witness :
    1 < typical_playlist_size songs2 ∧ 1 ≤ (umapParams songs2 2).n_neighbors := by
  have ht : 1 < typical_playlist_size songs2 := by decide
  exact ⟨ht, (neighborhood_size_formula songs2 2).2.1 ht⟩

/-- C2 counterexample: for a profile whose playlist listing has a second
page, `load_playlists` (which walks only `playlists.items`) produces a
different table than the spec's full enumeration — the playlist on the second
page contributes no rows. -/
theorem load_playlists_misses_playlist_pages :
    load_playlists clientW "u" ≠ load_playlists_spec clientW "u" := by
  intro h
  have h1 : (load_playlists clientW "u").length = 1 := by decide
  have h2 : (load_playlists_spec clientW "u").length = 2 := by decide
  rw [h, h2] at h1
  exact absurd h1 (by decide)

/-- C2 (amended): `load_playlists` enumerates only the playlists on the page
returned by the playlist listing, enumerates all of each such playlist's
tracks across all track pages, and yields exactly one row per (first-page
playlist, resolvable track) pair. -/
theorem load_playlists_first_page_rows (c : SpotifyClient) (user_id : String) :
    firstPageRows c user_id :=
  ⟨length_load_playlists c user_id, fun _ => mem_load_playlists⟩

/-- C4: every row of the Track Fetcher's table originates from a track whose
identifier is resolvable (`track.id` is not `None`); id-less tracks are
skipped and contribute no row. -/
theorem load_playlists_rows_resolvable (c : SpotifyClient) (user_id : String)
    (s : Song) (hs : s ∈ load_playlists c user_id) :
    rowFromResolvableTrack c user_id s :=
  mem_load_playlists.mp hs

/-- C4 witness: the concrete client's sole output row is a member of the
table and has a resolvable origin. -/
theorem load_playlists_rows_resolvable_witness :
    songRowA ∈ load_playlists clientW "u" ∧
      rowFromResolvableTrack clientW "u" songRowA := by
  have hEq : load_playlists clientW "u" = [songRowA] := rfl
  have hmem : songRowA ∈ load_playlists clientW "u" := by
    rw [hEq]
    exact List.mem_singleton_self _
  exact ⟨hmem, load_playlists_rows_resolvable clientW "u" songRowA hmem⟩

/-- C10: for every row produced by the Track Fetcher, the stored duration
equals the upstream `duration_ms` divided by 1000 — seconds, not the
upstream's milliseconds. -/
theorem load_playlists_duration_seconds (c : SpotifyClient) (user_id : String)
    (s : Song) (hs : s ∈ load_playlists c user_id) :
    durationInSeconds c user_id s := by
  obtain ⟨pref, hpref, item, hitem, tid, htid, rfl⟩ := mem_load_playlists.mp hs
  exact ⟨tid, ⟨pref, hpref, item, hitem, htid⟩, rfl⟩

/-- C10 witness: the concrete row is in the table and carries
`duration_ms / 1000`. -/
theorem load_playlists_duration_seconds_witness :
    songRowA ∈ load_playlists clientW "u" ∧
      durationInSeconds clientW "u" songRowA := by
  have hEq : load_playlists clientW "u" = [songRowA] := rfl
  have hmem : songRowA ∈ load_playlists clientW "u" := by
    rw [hEq]
    exact List.mem_singleton_self _
  exact ⟨hmem, load_playlists_duration_seconds clientW "u" songRowA hmem⟩

/-- C3 counterexample: at dimensionality 4 the `ValueError` is indeed raised,
but only *after* the embedding has been computed and the coordinate and title
columns have been assigned in place — the rejection is not immediate. -/
theorem plot_songs_dim4_rejects_after_work :
    (plot_songs libW 0 songs1 4).result =
        Except.error "Parameter dimensions has to be either 2 or 3." ∧
      (plot_songs libW 0 songs1 4).df.x.isSome = true ∧
      (plot_songs libW 0 songs1 4).df.title.isSome = true :=
  ⟨rfl, rfl, rfl⟩

/-- C3 (amended): every dimensionality other than 2 or 3 makes `plot_songs`
raise an error — the value is never coerced and no figure is produced — but
the error is raised only after the embedding pipeline has run (and, when the
embedding has enough columns, after the coordinate and title assignments). -/
theorem plot_songs_rejects_other_dimensions (lib : MLLib) (run : ℕ)
    (songs : List Song) (dimensions : ℕ) (h2 : dimensions ≠ 2)
    (h3 : dimensions ≠ 3) :
    isError (plot_songs lib run songs dimensions).result = true := by
  unfold plot_songs plot_songs_build
  split
  · rfl
  · split
    · rfl
    · simp only [if_neg h3, if_neg h2]
      rfl

/-- C3 witness: dimensionality 4 is concretely rejected. -/
theorem plot_songs_rejects_other_dimensions_witness :
    ((4 : ℕ) ≠ 2 ∧ (4 : ℕ) ≠ 3) ∧
      isError (plot_songs libW 0 songs2 4).result = true :=
  ⟨⟨by decide, by decide⟩,
    plot_songs_rejects_other_dimensions libW 0 songs2 4 (by decide) (by decide)⟩

/-- C5: for a non-empty dataset and dimensionality 2 or 3, two runs of
`plot_songs` on identical input produce identical outcomes (in particular
identical per-track coordinates): the seed is fixed to 42 and every other
pipeline stage is a deterministic function of the input. -/
theorem plot_songs_deterministic (lib : MLLib) (r1 r2 : ℕ) (songs : List Song)
    (dims : ℕ) (hlib : seedDeterministic lib) (hne : songs ≠ [])
    (hd : dims = 2 ∨ dims = 3) :
    plot_songs lib r1 songs dims = plot_songs lib r2 songs dims := by
  unfold plot_songs
  rw [show plot_songs_embedding lib r1 songs dims
        = plot_songs_embedding lib r2 songs dims from
      hlib r1 r2 (umapParams songs dims) _ _ rfl]

/-- C5 witness: two runs with different run identifiers coincide on a
concrete dataset under a concrete seed-respecting library. -/
theorem plot_songs_deterministic_witness :
    songs1 ≠ [] ∧ plot_songs libW 0 songs1 2 = plot_songs libW 1 songs1 2 :=
  ⟨List.cons_ne_nil songA [],
    plot_songs_deterministic libW 0 1 songs1 2 (fun _ _ _ _ _ _ => rfl)
      (List.cons_ne_nil songA []) (Or.inl rfl)⟩

/-- C9 counterexample: `plot_songs` does mutate the caller's dataset — after
a 2D call the dataframe is no longer in its pristine state (an `x` column has
been added in place). -/
theorem plot_songs_mutates_input :
    ¬ (plot_songs libW 0 songs1 2).df = pristine songs1 := by decide

/-- C9 (amended): `plot_songs` is not mutation-free: it augments the caller's
dataset in place with coordinate and title columns.  The mutation is limited
to those added columns — the underlying rows are returned unchanged — and on
a successful (non-raising) call the `x`, `y` and `title` columns have indeed
been assigned. -/
theorem plot_songs_mutation_only_adds_columns (lib : MLLib) (run : ℕ)
    (songs : List Song) (dims : ℕ) :
    (plot_songs lib run songs dims).df.base = songs ∧
      (isError (plot_songs lib run songs dims).result = false →
        (plot_songs lib run songs dims).df.x.isSome = true ∧
          (plot_songs lib run songs dims).df.y.isSome = true ∧
          (plot_songs lib run songs dims).df.title.isSome = true) := by
  unfold plot_songs plot_songs_build
  split
  · exact ⟨rfl, fun h => Bool.noConfusion h⟩
  · split
    · exact ⟨rfl, fun h => Bool.noConfusion h⟩
    · split
      · split
        · exact ⟨rfl, fun h => Bool.noConfusion h⟩
        · exact ⟨rfl, fun _ => ⟨rfl, rfl, rfl⟩⟩
      · split
        · exact ⟨rfl, fun _ => ⟨rfl, rfl, rfl⟩⟩
        · exact ⟨rfl, fun h => Bool.noConfusion h⟩

/-- C9 witness: on a concrete successful 2D call the rows are preserved and
the three columns were assigned. -/
theorem plot_songs_mutation_only_adds_columns_witness :
    isError (plot_songs libW 0 songs1 2).result = false ∧
      (plot_songs libW 0 songs1 2).df.base = songs1 ∧
      (plot_songs libW 0 songs1 2).df.x.isSome = true ∧
      (plot_songs libW 0 songs1 2).df.y.isSome = true ∧
      (plot_songs libW 0 songs1 2).df.title.isSome = true :=
  ⟨rfl, (plot_songs_mutation_only_adds_columns libW 0 songs1 2).1,
    (plot_songs_mutation_only_adds_columns libW 0 songs1 2).2 rfl⟩

/-- C6: a profile whose fetch yields an empty track table is rendered as the
"No public playlists." informational warning — no metrics, no tab content,
no chart of either kind, and no error state. -/
theorem renderMain_empty_warning (lib : MLLib) (run : ℕ)
    (audio_features : List (String × CatalogEntry)) (ticks : List ℤ)
    (songs : List Song) (x : String) (split : Bool) (dims : ℕ)
    (h : songs.length = 0) :
    renderMain lib run audio_features ticks songs x split dims =
      MainView.warning "No public playlists." := by
  unfold renderMain
  rw [if_pos h]

/-- C6 witness: the empty table concretely renders the warning. -/
theorem renderMain_empty_warning_witness :
    ([] : List Song).length = 0 ∧
      renderMain libW 0 [] [] ([] : List Song) "key" false 2 =
        MainView.warning "No public playlists." :=
  ⟨rfl, renderMain_empty_warning libW 0 [] [] [] "key" false 2 rfl⟩

/-- C7: for a catalog entry that declares a `value_map`, the rendered chart
is the count plot whose displayed tick labels are
`value_map.get(str(tick), tick)` — the mapped label when the code has an
entry, the raw code itself otherwise. -/
theorem plot_distribution_value_map_ticklabels (ticks : List ℤ)
    (songs : List Song) (audio_features : List (String × CatalogEntry))
    (x : String) (hue : Option String) (entry : CatalogEntry)
    (vm : List (String × String)) (hlook : audio_features.lookup x = some entry)
    (hvm : entry.value_map = some vm) :
    plot_distribution ticks songs audio_features x hue =
      some (DistChart.countplot x hue
        (ticks.map (fun t => (vm.lookup (toString t)).getD (toString t)))
        "Number of songs") := by
  unfold plot_distribution
  rw [hlook]
  dsimp only
  rw [hvm]

/-- C7 witness: with a map sending code 0 to "C", tick 0 is displayed as "C"
and the unmapped tick 7 falls back to the raw code "7". -/
theorem plot_distribution_value_map_ticklabels_witness :
    plot_distribution [0, 7] [] catW "key" none =
      some (DistChart.countplot "key" none ["C", "7"] "Number of songs") := by
  rw [plot_distribution_value_map_ticklabels [0, 7] [] catW "key" none entryKeyW
    [("0", "C"), ("1", "Db")] rfl rfl]
  rfl

/-- C8: for a catalog entry that declares a `unit`, the kde plot's support is
clipped to [0, 1] for a percentage unit, to [0, ∞) for a seconds unit, and
not clipped for any other unit. -/
theorem plot_distribution_unit_clip (ticks : List ℤ) (songs : List Song)
    (audio_features : List (String × CatalogEntry)) (x : String)
    (hue : Option String) (entry : CatalogEntry) (u : String)
    (hlook : audio_features.lookup x = some entry)
    (hvm : entry.value_map = none) (hu : entry.unit = some u) :
    (u = "%" → plot_distribution ticks songs audio_features x hue =
        some (DistChart.kdeplot x hue false (some (0, some 1)) x
          "Share of songs")) ∧
      (u = "s" → plot_distribution ticks songs audio_features x hue =
        some (DistChart.kdeplot x hue false (some (0, none))
          (x ++ " [" ++ u ++ "]") "Share of songs")) ∧
      (u ≠ "%" → u ≠ "s" → plot_distribution ticks songs audio_features x hue =
        some (DistChart.kdeplot x hue false none (x ++ " [" ++ u ++ "]")
          "Share of songs")) := by
  refine ⟨?_, ?_, ?_⟩
  · rintro rfl
    unfold plot_distribution
    rw [hlook]
    dsimp only
    rw [hvm]
    dsimp only
    rw [hu]
    rfl
  · rintro rfl
    unfold plot_distribution
    rw [hlook]
    dsimp only
    rw [hvm]
    dsimp only
    rw [hu]
    rfl
  · intro h1 h2
    unfold plot_distribution
    rw [hlook]
    dsimp only
    rw [hvm]
    dsimp only
    rw [hu]
    dsimp only
    rw [if_neg h1, if_neg h2, if_neg h1]

/-- C8 witness: a percentage-unit entry is concretely clipped to [0, 1]. -/
theorem plot_distribution_unit_clip_witness :
    plot_distribution [] [] catPctW "acousticness" none =
      some (DistChart.kdeplot "acousticness" none false (some (0, some 1))
        "acousticness" "Share of songs") :=
  (plot_distribution_unit_clip [] [] catPctW "acousticness" none entryAcW "%"
    rfl rfl rfl).1 rfl

end Clusterfy
